import Mathlib

/-!
Shallow embedding of the realtime-messenger application in `app.py`
(FastAPI + aiosqlite + raw websockets), together with proofs about the
claims of its specification.

Modelling conventions:
* SQLite rows are Lean structures; tables are lists of rows kept in
  insertion (rowid) order.  AUTOINCREMENT ids are threaded through the
  state as counters.
* SQLite TEXT comparison (BINARY collation, used by ORDER BY on the
  DATETIME columns, which are stored as text) is lexicographic
  comparison of the character lists, embedded as `charListLe`.
* `CURRENT_TIMESTAMP` (used by the messages / saved_chats defaults)
  renders a UTC instant as "YYYY-MM-DD HH:MM:SS", while Python
  `datetime.now().isoformat()` (used by `update_chat_last_message` and
  the outbound events) renders as "YYYY-MM-DDTHH:MM:SS[.ffffff]".
  Both are embedded as rendering functions on an abstract `DateTime`
  record; the process clock is an arbitrary function from read-counter
  to `DateTime`, one read per `now()` / `CURRENT_TIMESTAMP` evaluation.
* The body of the `while True` receive loop of `websocket_endpoint` is
  embedded as one step function on the server state.  An exception that
  the loop body raises and does not catch (the source catches only
  `WebSocketDisconnect`) is a `fatal` outcome: it propagates out of the
  handler and the channel is torn down.
* `pbkdf2_hmac` is an external primitive of hashlib; it enters the
  embedding as an explicit function parameter (an arbitrary
  deterministic byte function), bytes being naturals below 256.
-/

/-- Lexicographic comparison of character lists by code point, the
less-or-equal of SQLite BINARY collation on (ASCII) text values. -/
def charListLe : List Char → List Char → Bool
  | [], _ => true
  | _ :: _, [] => false
  | a :: as, b :: bs =>
    if a.toNat < b.toNat then true
    else if b.toNat < a.toNat then false
    else charListLe as bs

/-- Calendar instant with microseconds, the common content of a Python
datetime value and of the SQLite CURRENT_TIMESTAMP clock read. -/
structure DateTime where
  year : Nat
  month : Nat
  day : Nat
  hour : Nat
  minute : Nat
  second : Nat
  microsecond : Nat
deriving DecidableEq

/-- Two-digit zero-padded decimal rendering (exact for values below 100,
which covers every month/day/hour/minute/second a datetime produces). -/
def pad2 (n : Nat) : List Char := [Nat.digitChar (n / 10 % 10), Nat.digitChar (n % 10)]

/-- Four-digit zero-padded decimal rendering (exact for years below
10000, the full datetime year range). -/
def pad4 (n : Nat) : List Char :=
  [Nat.digitChar (n / 1000 % 10), Nat.digitChar (n / 100 % 10),
   Nat.digitChar (n / 10 % 10), Nat.digitChar (n % 10)]

/-- Six-digit zero-padded decimal rendering of the microsecond field. -/
def pad6 (n : Nat) : List Char :=
  [Nat.digitChar (n / 100000 % 10), Nat.digitChar (n / 10000 % 10),
   Nat.digitChar (n / 1000 % 10), Nat.digitChar (n / 100 % 10),
   Nat.digitChar (n / 10 % 10), Nat.digitChar (n % 10)]

/-- Date part "YYYY-MM-DD" shared by both timestamp renderings. -/
def dateList (t : DateTime) : List Char :=
  pad4 t.year ++ '-' :: (pad2 t.month ++ '-' :: pad2 t.day)

/-- Time part "HH:MM:SS" shared by both timestamp renderings. -/
def timeList (t : DateTime) : List Char :=
  pad2 t.hour ++ ':' :: (pad2 t.minute ++ ':' :: pad2 t.second)

/-- Rendering of SQLite CURRENT_TIMESTAMP: "YYYY-MM-DD HH:MM:SS", with
a space separating date and time and no sub-second digits. -/
def sqliteTimestamp (t : DateTime) : String :=
  String.mk (dateList t ++ ' ' :: timeList t)

/-- Rendering of Python datetime.isoformat(): a capital T separates
date and time, and a ".ffffff" microsecond suffix appears exactly when
the microsecond field is nonzero. -/
def isoformat (t : DateTime) : String :=
  String.mk (dateList t ++ 'T' ::
    (timeList t ++ (if t.microsecond = 0 then [] else '.' :: pad6 t.microsecond)))

/-- Row of the users table (app.py lifespan: CREATE TABLE users). -/
structure UserRow where
  id : Nat
  username : String
  email : String
  password : String
  nickname : String
  pfp : Option String
deriving DecidableEq

/-- Row of the messages table (app.py lifespan: CREATE TABLE messages);
the timestamp column defaults to CURRENT_TIMESTAMP on insert. -/
structure MessageRow where
  id : Nat
  sender_username : String
  receiver_username : String
  message : String
  timestamp : String
deriving DecidableEq

/-- Row of the saved_chats table (app.py lifespan: CREATE TABLE
saved_chats); created_at defaults to CURRENT_TIMESTAMP on insert and
the last-message columns start NULL. -/
structure ChatRow where
  id : Nat
  user_username : String
  chat_username : String
  chat_nickname : String
  chat_pfp : Option String
  last_message_time : Option String
  last_message : Option String
  created_at : String
deriving DecidableEq

/-- Whole server state: the three tables, the in-memory connection
registry of WebsocketConnectionManager (username to channel id, one
entry per username as in a Python dict), the AUTOINCREMENT counters,
and the clock read counter. -/
structure St where
  users : List UserRow
  messages : List MessageRow
  saved_chats : List ChatRow
  active_connections : List (String × Nat)
  nextMessageId : Nat
  nextChatId : Nat
  tick : Nat
deriving DecidableEq

/-- Content of one outbound websocket frame: the unstructured presence
text notices, the three structured JSON events of the router, and the
structured offline error notice (also type "error" in the source). -/
inductive EventBody where
  | text (s : String)
  | message (fromUser : String) (from_nickname : String) (from_pfp : Option String)
      (msg : String) (timestamp : String)
  | sent (toUser : String) (msg : String) (timestamp : String)
  | error (msg : String)
deriving DecidableEq

/-- One delivered frame: which username received which body. -/
structure Delivery where
  toUser : String
  body : EventBody
deriving DecidableEq

/-- Result of json.loads on an inbound frame when it is a JSON object:
the fields the handler reads ("to", "message") plus extra client-supplied
sender/timestamp fields, present to state that the code ignores them.
A frame that is not valid JSON is embedded as Option.none upstream. -/
structure Payload where
  toField : Option String
  messageField : Option String
  fromField : Option String
  timestampField : Option String
deriving DecidableEq

/-- Python exceptions the loop body can raise that the source does not
catch (its except clause catches only WebSocketDisconnect). -/
inductive PyError where
  | jsonDecodeError
  | keyError
  | noneNotSubscriptable
deriving DecidableEq

/-- Outcome of one receive-loop iteration: ok loops again; fatal means
an uncaught exception escaped the handler, tearing the channel down. -/
inductive Outcome where
  | ok
  | fatal (e : PyError)
deriving DecidableEq

/-- Dict membership test of manager.active_connections. -/
def isConnected (m : List (String × Nat)) (username : String) : Bool :=
  m.any (fun e => e.1 == username)

/-- Dict assignment active_connections[username] = websocket: replace
the existing binding if present, otherwise append a new one. -/
def assocSet (m : List (String × Nat)) (username : String) (ws : Nat) :
    List (String × Nat) :=
  if m.any (fun e => e.1 == username) then
    m.map (fun e => if e.1 == username then (username, ws) else e)
  else m ++ [(username, ws)]

/-- WebsocketConnectionManager.broadcast: send the body to every
registered connection whose username is not excluded. -/
def broadcast (m : List (String × Nat)) (body : EventBody) (exclude : List String) :
    List Delivery :=
  (m.filter (fun e => !(exclude.contains e.1))).map (fun e => ⟨e.1, body⟩)

/-- WebsocketConnectionManager.send_personal_message: deliver to the
channel bound to the username if one is registered, else do nothing. -/
def send_personal_message (m : List (String × Nat)) (body : EventBody)
    (username : String) : List Delivery :=
  if isConnected m username then [⟨username, body⟩] else []

/-- WebsocketConnectionManager.connect: broadcast the presence notice
(excluding the connecting username) over the registry as it was before
the new binding is stored, then store the binding. -/
def connect (m : List (String × Nat)) (ws : Nat) (username : String) :
    List (String × Nat) × List Delivery :=
  (assocSet m username ws,
   broadcast m (.text (username ++ " is online.")) [username])

/-- WebsocketConnectionManager.disconnect: drop the binding if present. -/
def disconnect (m : List (String × Nat)) (username : String) :
    List (String × Nat) :=
  m.filter (fun e => !(e.1 == username))

/-- JWT payload as the source builds it: subject, expiry, issue time
and a random token id, all times in whole seconds. -/
structure TokenPayload where
  sub : String
  exp : Nat
  iat : Nat
  jti : String
deriving DecidableEq

/-- create_jwt: expiry is now plus the given delta, defaulting to
15 minutes when the caller passes no expires_delta. -/
def create_jwt (sub : String) (expires_delta : Option Nat) (now : Nat)
    (jti : String) : TokenPayload :=
  { sub := sub, exp := now + expires_delta.getD (15 * 60), iat := now, jti := jti }

/-- Token minted by the POST /sign-in handler login_form: create_jwt is
called with the bare subject payload and no expires_delta. -/
def login_form_token (username : String) (now : Nat) (jti : String) : TokenPayload :=
  create_jwt username none now jti

/-- Cookie lifetime set by login_form: max_age=3600 * 24 * 31 seconds. -/
def login_cookie_max_age : Nat := 3600 * 24 * 31

/-- SELECT ... FROM users WHERE username = ? LIMIT-one lookup. -/
def findUser (users : List UserRow) (username : String) : Option UserRow :=
  users.find? (fun r => r.username == username)

/-- Python expression x or y on strings: y when x is empty (falsy). -/
def orFallback (x fallback : String) : String :=
  if x == "" then fallback else x

/-- Key predicate of the saved_chats WHERE clauses: the row owned by
owner that caches the conversation with peer. -/
def chatKey (owner peer : String) (r : ChatRow) : Bool :=
  r.user_username == owner && r.chat_username == peer

/-- Existence test SELECT id FROM saved_chats WHERE user_username = ?
AND chat_username = ?. -/
def hasChat (chats : List ChatRow) (owner peer : String) : Bool :=
  chats.any (chatKey owner peer)

/-- One half of auto_save_chat_for_both_users: if no (who, peer) roster
row exists, insert one with the display snapshot of peerInfo and NULL
last-message fields; subscripting a missing peerInfo row raises.  The
created_at default consumes one clock read. -/
def autoSaveOne (clock : Nat → DateTime) (who peer : String)
    (peerInfo : Option UserRow) (s : St) : Except PyError St :=
  if hasChat s.saved_chats who peer then .ok s
  else
    match peerInfo with
    | none => .error .noneNotSubscriptable
    | some r =>
        .ok { s with
          saved_chats := s.saved_chats ++
            [⟨s.nextChatId, who, peer, orFallback r.nickname peer, r.pfp,
              none, none, sqliteTimestamp (clock s.tick)⟩],
          nextChatId := s.nextChatId + 1,
          tick := s.tick + 1 }

/-- auto_save_chat_for_both_users: lazily create the sender-owned row
(display snapshot of the receiver) and then the receiver-owned row
(display snapshot of the sender). -/
def auto_save_chat_for_both_users (clock : Nat → DateTime)
    (sender_username receiver_username : String)
    (sender_info receiver_info : Option UserRow) (s : St) : Except PyError St :=
  (autoSaveOne clock sender_username receiver_username receiver_info s).bind
    (fun s1 => autoSaveOne clock receiver_username sender_username sender_info s1)

/-- update_chat_last_message: one datetime.now().isoformat() read, then
two UPDATEs setting last_message and last_message_time on the
(sender, receiver) and (receiver, sender) rows. -/
def update_chat_last_message (clock : Nat → DateTime)
    (sender_username receiver_username message : String) (s : St) : St :=
  let ts := isoformat (clock s.tick)
  let upd := fun (a b : String) (r : ChatRow) =>
    if chatKey a b r then
      { r with last_message := some message, last_message_time := some ts }
    else r
  { s with
    saved_chats := (s.saved_chats.map (upd sender_username receiver_username)).map
      (upd receiver_username sender_username),
    tick := s.tick + 1 }

/-- Continuation of the receive-loop body after the INSERT transaction
committed on state s1: fetch both profiles, sync the rosters, update
the last-message fields, then deliver events depending on whether the
receiver is registered.  Subscripting a missing profile row raises, and
the exception escapes as a fatal outcome. -/
def router_after_insert (clock : Nat → DateTime) (username toU msg : String)
    (s1 : St) : St × List Delivery × Outcome :=
  let si := findUser s1.users username
  let ri := findUser s1.users toU
  match auto_save_chat_for_both_users clock username toU si ri s1 with
  | .error e => (s1, [], .fatal e)
  | .ok s2 =>
    let s3 := update_chat_last_message clock username toU msg s2
    if isConnected s3.active_connections toU then
      match si with
      | none => (s3, [], .fatal .noneNotSubscriptable)
      | some srow =>
        let ev1 := send_personal_message s3.active_connections
          (.message username (orFallback srow.nickname username) srow.pfp msg
            (isoformat (clock s3.tick))) toU
        let s4 : St := { s3 with tick := s3.tick + 1 }
        let ev2 := send_personal_message s4.active_connections
          (.sent toU msg (isoformat (clock s4.tick))) username
        ({ s4 with tick := s4.tick + 1 }, ev1 ++ ev2, .ok)
    else
      (s3,
       send_personal_message s3.active_connections
         (.error ("User " ++ toU ++ " is not online.")) username,
       .ok)

/-- One iteration of the while-True receive loop of websocket_endpoint
for the channel bound to username: parse, INSERT the message (timestamp
from the DB clock), then run the post-insert router.  A none payload is
a frame json.loads rejects; a missing "to" or "message" key raises
KeyError while building the INSERT parameters; both escape the handler
as fatal outcomes before any row is written. -/
def websocket_receive_step (clock : Nat → DateTime) (username : String)
    (payload : Option Payload) (s : St) : St × List Delivery × Outcome :=
  match payload with
  | none => (s, [], .fatal .jsonDecodeError)
  | some p =>
    match p.toField, p.messageField with
    | none, _ => (s, [], .fatal .keyError)
    | some _, none => (s, [], .fatal .keyError)
    | some toU, some msg =>
      router_after_insert clock username toU msg
        { s with
          messages := s.messages ++
            [⟨s.nextMessageId, username, toU, msg, sqliteTimestamp (clock s.tick)⟩],
          nextMessageId := s.nextMessageId + 1,
          tick := s.tick + 1 }

/-- Pair filter of GET /api/messages/...: sent in either direction
between the caller and the other username. -/
def pairPred (me other : String) (m : MessageRow) : Bool :=
  (m.sender_username == me && m.receiver_username == other) ||
  (m.sender_username == other && m.receiver_username == me)

/-- ORDER BY m.timestamp ASC comparison on message rows. -/
def tsLe (a b : MessageRow) : Prop :=
  charListLe a.timestamp.data b.timestamp.data = true

instance : DecidableRel tsLe := fun a b =>
  inferInstanceAs (Decidable (charListLe a.timestamp.data b.timestamp.data = true))

/-- GET /api/messages/.. query: rows between the pair, ordered by
timestamp ascending, LIMIT 50 keeping the first fifty of that ascending
order. -/
def get_messages (me other : String) (messages : List MessageRow) : List MessageRow :=
  ((messages.filter (pairPred me other)).insertionSort tsLe).take 50

/-- ORDER BY sc.last_message_time DESC NULLS LAST, sc.created_at DESC
comparison on saved-chat rows: a row may precede another when its
last_message_time is strictly larger, or the two are equal (both NULL
counting as equal) and its created_at is at least as large; any
non-NULL last_message_time precedes every NULL one. -/
def rosterLeB (a b : ChatRow) : Bool :=
  match a.last_message_time, b.last_message_time with
  | some ta, some tb =>
      if ta = tb then charListLe b.created_at.data a.created_at.data
      else charListLe tb.data ta.data
  | some _, none => true
  | none, some _ => false
  | none, none => charListLe b.created_at.data a.created_at.data

/-- Propositional form of rosterLeB. -/
def rosterLe (a b : ChatRow) : Prop := rosterLeB a b = true

instance : DecidableRel rosterLe := fun a b =>
  inferInstanceAs (Decidable (rosterLeB a b = true))

/-- GET /api/saved-chats query: the rows owned by the caller, ordered
by last_message_time descending with NULLs last and created_at
descending as tie-break. -/
def get_saved_chats (owner : String) (chats : List ChatRow) : List ChatRow :=
  (chats.filter (fun r => r.user_username == owner)).insertionSort rosterLe

/-- POST /api/save-chat handler body: if a (owner, peer) row exists,
UPDATE only its chat_nickname and chat_pfp; otherwise INSERT a fresh
row whose last-message fields are NULL and whose created_at takes the
DB clock default. -/
def save_chat (owner peer nickname : String) (pfp : Option String)
    (chats : List ChatRow) (newId : Nat) (now : String) : List ChatRow :=
  if chats.any (chatKey owner peer) then
    chats.map (fun r =>
      if chatKey owner peer r then
        { r with chat_nickname := nickname, chat_pfp := pfp }
      else r)
  else chats ++ [⟨newId, owner, peer, nickname, pfp, none, none, now⟩]

/-- Router-owned and immutable columns of a roster row: the two
last-message fields (which POST /api/save-chat must never touch) and
the creation time. -/
def lastFields (r : ChatRow) : Option String × Option String × String :=
  (r.last_message, r.last_message_time, r.created_at)

/-- Lowercase hex digit of a value below 16 (hex() output of Python);
values below ten map into the decimal digits, the rest into letters
starting at a, exactly the behaviour of Nat.digitChar on this range. -/
def hexDigit (n : Nat) : Char := Nat.digitChar n

/-- Two lowercase hex digits of one byte, as bytes.hex() renders it. -/
def byteToHex (b : Nat) : List Char := [hexDigit (b / 16), hexDigit (b % 16)]

/-- bytes.hex(): concatenation of the per-byte hex pairs. -/
def bytesToHex : List Nat → List Char
  | [] => []
  | b :: bs => byteToHex b ++ bytesToHex bs

/-- Value of one lowercase hex digit via its code point: the decimal
digits start at code 48, the letter a at code 97 standing for ten.  The
inputs this development feeds it are always digits hexDigit made. -/
def hexVal (c : Char) : Nat :=
  if c.toNat ≤ 57 then c.toNat - 48 else c.toNat - 87

/-- bytes.fromhex(): decode consecutive hex-digit pairs. -/
def bytesFromHex : List Char → List Nat
  | c1 :: c2 :: rest => (hexVal c1 * 16 + hexVal c2) :: bytesFromHex rest
  | _ => []

/-- hash_password: a 32-byte salt (os.urandom, here an explicit
argument) and the pbkdf2 digest of the password with that salt, stored
as salt hex followed by digest hex.  pbkdf2 stands for the external
hashlib.pbkdf2_hmac sha256 primitive at 100000 iterations. -/
def hash_password (pbkdf2 : List Nat → List Nat → List Nat)
    (salt password : List Nat) : List Char :=
  bytesToHex salt ++ bytesToHex (pbkdf2 password salt)

/-- verify_password: the first 64 stored characters decode back to the
salt, the rest is the reference digest hex, and the provided password
is accepted exactly when its pbkdf2 digest under that salt renders to
the same hex text. -/
def verify_password (pbkdf2 : List Nat → List Nat → List Nat)
    (stored : List Char) (provided : List Nat) : Bool :=
  bytesToHex (pbkdf2 provided (bytesFromHex (stored.take 64))) == stored.drop 64

/-- Demo clock: every read returns midnight, October 12, 2026. -/
def clock0 : Nat → DateTime := fun _ => ⟨2026, 10, 12, 0, 0, 0, 0⟩

/-- Demo users table with two registered identities A and B. -/
def demoUsers : List UserRow :=
  [⟨1, "A", "a@example.com", "x", "Anna", none⟩,
   ⟨2, "B", "b@example.com", "x", "Bob", some "b.png"⟩]

/-- Demo inbound frame from the channel of A: send "hi" to B. -/
def hiPayload : Payload := ⟨some "B", some "hi", none, none⟩

/-- Demo state with both identities connected and empty tables. -/
def demoStart : St := ⟨demoUsers, [], [], [("A", 0), ("B", 1)], 1, 1, 0⟩

/-- Demo state with only A connected and empty tables. -/
def demoStartOffline : St := ⟨demoUsers, [], [], [("A", 0)], 1, 1, 0⟩

/-- Timestamp text of the i-th demo message: the four digits of
1000 + i, so the texts are lexicographically increasing in i and all
precede any rendering of a year-2026 clock read. -/
def msgTs (i : Nat) : String := String.mk (pad4 (1000 + i))

/-- Row of the i-th demo message from A to B. -/
def mkRow (i : Nat) : MessageRow := ⟨i + 1, "A", "B", "m", msgTs i⟩

/-- Table of 51 demo messages between A and B. -/
def table51 : List MessageRow := (List.range 51).map mkRow

/-- Table of 50 demo messages between A and B. -/
def table50 : List MessageRow := (List.range 50).map mkRow

/-- The newest of the 51 demo messages. -/
def newestRow : MessageRow := mkRow 50

/-- Demo state of a pair with 50 persisted messages, receiver offline. -/
def fullState : St := ⟨demoUsers, table50, [], [("A", 0)], 51, 1, 0⟩

/-- Transitivity of the BINARY text comparison. -/
theorem clle_trans : ∀ as bs cs : List Char, charListLe as bs = true →
    charListLe bs cs = true → charListLe as cs = true := by
  intro as
  induction as with
  | nil => intro bs cs _ _; rfl
  | cons a as ih =>
    intro bs cs h1 h2
    cases bs with
    | nil => simp [charListLe] at h1
    | cons b bs =>
      cases cs with
      | nil => simp [charListLe] at h2
      | cons c cs =>
        simp only [charListLe] at h1 h2 ⊢
        rcases Nat.lt_trichotomy a.toNat b.toNat with hab | hab | hab
        · rcases Nat.lt_trichotomy b.toNat c.toNat with hbc | hbc | hbc
          · simp [Nat.lt_trans hab hbc]
          · simp [hbc ▸ hab]
          · simp [Nat.lt_asymm hbc, hbc] at h2
        · rcases Nat.lt_trichotomy b.toNat c.toNat with hbc | hbc | hbc
          · simp [hab ▸ hbc]
          · have hac : ¬ a.toNat < c.toNat := by omega
            have hca : ¬ c.toNat < a.toNat := by omega
            simp only [if_neg hac, if_neg hca]
            simp only [if_neg (show ¬ a.toNat < b.toNat by omega),
              if_neg (show ¬ b.toNat < a.toNat by omega)] at h1
            simp only [if_neg (show ¬ b.toNat < c.toNat by omega),
              if_neg (show ¬ c.toNat < b.toNat by omega)] at h2
            exact ih _ _ h1 h2
          · simp [Nat.lt_asymm hbc, hbc] at h2
        · simp [Nat.lt_asymm hab, hab] at h1

/-- Totality of the BINARY text comparison. -/
theorem clle_total : ∀ as bs : List Char,
    charListLe as bs = true ∨ charListLe bs as = true := by
  intro as
  induction as with
  | nil => intro bs; left; rfl
  | cons a as ih =>
    intro bs
    cases bs with
    | nil => right; rfl
    | cons b bs =>
      simp only [charListLe]
      rcases Nat.lt_trichotomy a.toNat b.toNat with h | h | h
      · left; simp [h]
      · have h1 : ¬ a.toNat < b.toNat := by omega
        have h2 : ¬ b.toNat < a.toNat := by omega
        rcases ih bs with hc | hc <;> [left; right] <;> simp [h1, h2, hc]
      · right; simp [h, Nat.lt_asymm h]

/-- Antisymmetry of the BINARY text comparison. -/
theorem clle_antisymm : ∀ as bs : List Char, charListLe as bs = true →
    charListLe bs as = true → as = bs := by
  intro as
  induction as with
  | nil =>
    intro bs h1 h2
    cases bs with
    | nil => rfl
    | cons b bs => simp [charListLe] at h2
  | cons a as ih =>
    intro bs h1 h2
    cases bs with
    | nil => simp [charListLe] at h1
    | cons b bs =>
      simp only [charListLe] at h1 h2
      have hab : a.toNat = b.toNat := by
        by_contra h
        rcases Nat.lt_or_ge a.toNat b.toNat with hl | hl
        · simp [hl, Nat.lt_asymm hl] at h2
        · have hba : b.toNat < a.toNat := by omega
          simp [hba, Nat.lt_asymm hba] at h1
      have heq : a = b := by
        rw [← Char.ofNat_toNat a, ← Char.ofNat_toNat b, hab]
      subst heq
      simp only [if_neg (Nat.lt_irrefl a.toNat)] at h1 h2
      exact congrArg (a :: ·) (ih _ h1 h2)

/-- The two timestamp renderings never coincide, whatever instants they
render: position ten holds a space in the SQLite format and a capital T
in the Python isoformat. -/
theorem sqliteTimestamp_ne_isoformat (t u : DateTime) :
    sqliteTimestamp t ≠ isoformat u := by
  intro h
  have hd : dateList t ++ ' ' :: timeList t =
      dateList u ++ 'T' :: (timeList u ++
        (if u.microsecond = 0 then [] else '.' :: pad6 u.microsecond)) :=
    congrArg String.data h
  have hlen : (dateList t).length = (dateList u).length := rfl
  have htail := (List.append_inj hd hlen).2
  injection htail with hch _
  exact absurd hch (by decide)

/-- Setting the last-message fields of a row does not change its key. -/
theorem chatKey_update (x y m ts : String) (r : ChatRow) :
    chatKey x y { r with last_message := some m, last_message_time := some ts } =
      chatKey x y r := rfl

/-- Existence tests distribute over table append. -/
theorem hasChat_append (l1 l2 : List ChatRow) (a b : String) :
    hasChat (l1 ++ l2) a b = (hasChat l1 a b || hasChat l2 a b) := by
  simp [hasChat, List.any_append]

/-- A freshly inserted (who, peer) roster row satisfies its own key. -/
theorem hasChat_single (i : Nat) (who peer n : String) (pf : Option String)
    (ca : String) :
    hasChat [⟨i, who, peer, n, pf, none, none, ca⟩] who peer = true := by
  simp [hasChat, chatKey]

/-- autoSaveOne leaves the other tables, the registry and the message
counter untouched whenever it returns a state. -/
theorem autoSaveOne_ok_inv {clock : Nat → DateTime} {who peer : String}
    {info : Option UserRow} {s s2 : St}
    (h : autoSaveOne clock who peer info s = .ok s2) :
    s2.messages = s.messages ∧ s2.users = s.users ∧
      s2.active_connections = s.active_connections := by
  unfold autoSaveOne at h
  split at h
  · cases h; exact ⟨rfl, rfl, rfl⟩
  · cases info with
    | none => simp at h
    | some r => cases h; exact ⟨rfl, rfl, rfl⟩

/-- With the peer profile present, autoSaveOne succeeds, changes no
other table, establishes its own roster key and preserves every roster
key already present. -/
theorem autoSaveOne_some_ok (clock : Nat → DateTime) (who peer : String)
    (r : UserRow) (s : St) :
    ∃ s2, autoSaveOne clock who peer (some r) s = .ok s2 ∧
      s2.messages = s.messages ∧ s2.users = s.users ∧
      s2.active_connections = s.active_connections ∧
      hasChat s2.saved_chats who peer = true ∧
      (∀ x y, hasChat s.saved_chats x y = true → hasChat s2.saved_chats x y = true) := by
  unfold autoSaveOne
  by_cases hc : hasChat s.saved_chats who peer
  · exact ⟨s, by simp [hc], rfl, rfl, rfl, hc, fun x y hxy => hxy⟩
  · refine ⟨{ s with
        saved_chats := s.saved_chats ++
          [⟨s.nextChatId, who, peer, orFallback r.nickname peer, r.pfp,
            none, none, sqliteTimestamp (clock s.tick)⟩],
        nextChatId := s.nextChatId + 1,
        tick := s.tick + 1 }, by simp [hc], rfl, rfl, rfl, ?_, ?_⟩
    · show hasChat (s.saved_chats ++
        [⟨s.nextChatId, who, peer, orFallback r.nickname peer, r.pfp,
          none, none, sqliteTimestamp (clock s.tick)⟩]) who peer = true
      rw [hasChat_append, hasChat_single]
      simp
    · intro x y hxy
      show hasChat (s.saved_chats ++
        [⟨s.nextChatId, who, peer, orFallback r.nickname peer, r.pfp,
          none, none, sqliteTimestamp (clock s.tick)⟩]) x y = true
      rw [hasChat_append, hxy]
      simp

/-- auto_save_chat_for_both_users leaves the other tables, the registry
and the message counter untouched whenever it returns a state. -/
theorem auto_save_ok_inv {clock : Nat → DateTime} {a b : String}
    {si ri : Option UserRow} {s s2 : St}
    (h : auto_save_chat_for_both_users clock a b si ri s = .ok s2) :
    s2.messages = s.messages ∧ s2.users = s.users ∧
      s2.active_connections = s.active_connections := by
  unfold auto_save_chat_for_both_users at h
  cases h1 : autoSaveOne clock a b ri s with
  | error e => rw [h1] at h; simp [Except.bind] at h
  | ok t1 =>
    rw [h1] at h
    simp only [Except.bind] at h
    obtain ⟨hm1, hu1, ha1⟩ := autoSaveOne_ok_inv h1
    obtain ⟨hm2, hu2, ha2⟩ := autoSaveOne_ok_inv h
    exact ⟨hm2.trans hm1, hu2.trans hu1, ha2.trans ha1⟩

/-- With both profiles present, the roster synchronizer succeeds,
changes no other table, and afterwards both directed roster rows
exist. -/
theorem auto_save_some_ok (clock : Nat → DateTime) (a b : String)
    (sr rr : UserRow) (s : St) :
    ∃ s2, auto_save_chat_for_both_users clock a b (some sr) (some rr) s = .ok s2 ∧
      s2.messages = s.messages ∧ s2.users = s.users ∧
      s2.active_connections = s.active_connections ∧
      hasChat s2.saved_chats a b = true ∧ hasChat s2.saved_chats b a = true := by
  obtain ⟨t1, h1, hm1, hu1, ha1, hc1, hpres1⟩ := autoSaveOne_some_ok clock a b rr s
  obtain ⟨t2, h2, hm2, hu2, ha2, hc2, hpres2⟩ := autoSaveOne_some_ok clock b a sr t1
  refine ⟨t2, ?_, hm2.trans hm1, hu2.trans hu1, ha2.trans ha1, hpres2 _ _ hc1, hc2⟩
  unfold auto_save_chat_for_both_users
  rw [h1]
  simpa [Except.bind] using h2

/-- update_chat_last_message touches only the saved_chats table and the
clock counter. -/
theorem update_inv (clock : Nat → DateTime) (a b msg : String) (s : St) :
    (update_chat_last_message clock a b msg s).messages = s.messages ∧
    (update_chat_last_message clock a b msg s).users = s.users ∧
    (update_chat_last_message clock a b msg s).active_connections =
      s.active_connections :=
  ⟨rfl, rfl, rfl⟩

/-- update_chat_last_message does not create or delete roster keys. -/
theorem update_hasChat (clock : Nat → DateTime) (a b msg : String) (s : St)
    (x y : String) :
    hasChat (update_chat_last_message clock a b msg s).saved_chats x y =
      hasChat s.saved_chats x y := by
  simp only [update_chat_last_message, hasChat]
  generalize s.saved_chats = l
  induction l with
  | nil => rfl
  | cons r l ih =>
    simp only [List.map_cons, List.any_cons]
    rw [ih]
    by_cases h1 : chatKey a b r <;> by_cases h2 : chatKey b a r <;>
      simp [h1, h2, chatKey_update]

/-- After update_chat_last_message, every roster row keyed by the pair
in either direction carries the message body and the isoformat
rendering of the clock read the update consumed. -/
theorem update_fields (clock : Nat → DateTime) (a b msg : String) (s : St) :
    ∀ r ∈ (update_chat_last_message clock a b msg s).saved_chats,
      (chatKey a b r || chatKey b a r) = true →
      r.last_message = some msg ∧
      r.last_message_time = some (isoformat (clock s.tick)) := by
  intro r hr hk
  simp only [update_chat_last_message, List.mem_map] at hr
  obtain ⟨r1, ⟨r0, hr0, hr1e⟩, hre⟩ := hr
  subst hr1e hre
  by_cases h1 : chatKey a b r0
  · simp only [if_pos h1, chatKey_update] at hk ⊢
    by_cases h2 : chatKey b a r0
    · simp only [if_pos h2]
      constructor <;> trivial
    · simp only [if_neg h2]
      constructor <;> trivial
  · simp only [if_neg h1] at hk ⊢
    by_cases h2 : chatKey b a r0
    · simp only [if_pos h2]
      constructor <;> trivial
    · simp only [if_neg h2] at hk ⊢
      simp [h1, h2] at hk

/-- The post-insert router never touches the messages table. -/
theorem router_after_insert_messages (clock : Nat → DateTime)
    (u toU msg : String) (s1 : St) :
    (router_after_insert clock u toU msg s1).1.messages = s1.messages := by
  unfold router_after_insert
  dsimp only
  cases hAS : auto_save_chat_for_both_users clock u toU (findUser s1.users u)
      (findUser s1.users toU) s1 with
  | error e => rfl
  | ok s2 =>
    have hm := (auto_save_ok_inv hAS).1
    dsimp only
    by_cases hic : isConnected
        (update_chat_last_message clock u toU msg s2).active_connections toU
    · rw [if_pos hic]
      cases hsi : findUser s1.users u with
      | none => exact hm
      | some srow => exact hm
    · rw [if_neg hic]
      exact hm

/-- Behaviour of the post-insert router when both profiles resolve:
the roster synchronizer succeeds on some state s2, the final state
carries the saved_chats of the last-message update applied to s2, the
registry and messages are untouched, the outcome is ok, and when the
receiver is not registered the emitted events are exactly the personal
offline notice to the sender. -/
theorem router_after_insert_spec (clock : Nat → DateTime) (u toU msg : String)
    (s1 : St) (sr rr : UserRow)
    (hsi : findUser s1.users u = some sr) (hri : findUser s1.users toU = some rr) :
    ∃ s2, auto_save_chat_for_both_users clock u toU (some sr) (some rr) s1 = .ok s2 ∧
      s2.messages = s1.messages ∧ s2.active_connections = s1.active_connections ∧
      hasChat s2.saved_chats u toU = true ∧ hasChat s2.saved_chats toU u = true ∧
      (router_after_insert clock u toU msg s1).1.saved_chats =
        (update_chat_last_message clock u toU msg s2).saved_chats ∧
      (router_after_insert clock u toU msg s1).1.messages = s1.messages ∧
      (router_after_insert clock u toU msg s1).2.2 = .ok ∧
      (isConnected s1.active_connections toU = false →
        (router_after_insert clock u toU msg s1).2.1 =
          send_personal_message s1.active_connections
            (.error ("User " ++ toU ++ " is not online.")) u) := by
  obtain ⟨s2, hok, hm, hu, ha, hcab, hcba⟩ := auto_save_some_ok clock u toU sr rr s1
  refine ⟨s2, hok, hm, ha, hcab, hcba, ?_⟩
  unfold router_after_insert
  dsimp only
  rw [hsi, hri, hok]
  dsimp only
  have hact : (update_chat_last_message clock u toU msg s2).active_connections =
      s1.active_connections := ha
  by_cases hic : isConnected
      (update_chat_last_message clock u toU msg s2).active_connections toU
  · rw [if_pos hic]
    refine ⟨rfl, hm, rfl, ?_⟩
    intro hoffl
    rw [hact, hoffl] at hic
    cases hic
  · rw [if_neg hic]
    refine ⟨rfl, hm, rfl, ?_⟩
    intro _
    rw [hact]

/-- Every receive-loop iteration on a well-keyed payload appends to the
messages table exactly one row whose sender is the bound username and
whose timestamp is the SQLite rendering of the DB clock read. -/
theorem step_messages (clock : Nat → DateTime) (u toU msg : String)
    (f t : Option String) (s : St) :
    (websocket_receive_step clock u (some ⟨some toU, some msg, f, t⟩) s).1.messages =
      s.messages ++ [⟨s.nextMessageId, u, toU, msg, sqliteTimestamp (clock s.tick)⟩] := by
  exact router_after_insert_messages clock u toU msg
    { s with
      messages := s.messages ++
        [⟨s.nextMessageId, u, toU, msg, sqliteTimestamp (clock s.tick)⟩],
      nextMessageId := s.nextMessageId + 1,
      tick := s.tick + 1 }

/-- Equal character data means equal strings. -/
theorem str_eq_of_data_eq (a b : String) (h : a.data = b.data) : a = b := by
  cases a
  cases b
  exact congrArg String.mk h

/-- Hex rendering of a byte list is two characters per byte. -/
theorem bytesToHex_length (bs : List Nat) : (bytesToHex bs).length = 2 * bs.length := by
  induction bs with
  | nil => rfl
  | cons b bs ih =>
    simp only [bytesToHex, byteToHex, List.length_cons, List.cons_append,
      List.nil_append, ih]
    omega

/-- Decoding a rendered hex digit returns the value, below 16. -/
theorem hexVal_hexDigit : ∀ n < 16, hexVal (hexDigit n) = n := by decide

/-- bytes.fromhex inverts bytes.hex on genuine byte lists. -/
theorem bytesFromHex_bytesToHex (bs : List Nat) (h : ∀ b ∈ bs, b < 256) :
    bytesFromHex (bytesToHex bs) = bs := by
  induction bs with
  | nil => rfl
  | cons b bs ih =>
    have hb : b < 256 := h b (by simp)
    have h16a : b / 16 < 16 := by omega
    have h16b : b % 16 < 16 := by omega
    simp only [bytesToHex, byteToHex, List.cons_append, List.append_eq,
      List.nil_append, bytesFromHex]
    rw [hexVal_hexDigit _ h16a, hexVal_hexDigit _ h16b,
      ih (fun x hx => h x (List.mem_cons_of_mem _ hx))]
    congr 1
    omega

/-- C10: for every password and every 32-byte salt chosen during
hashing, verifying the password against the stored text produced by
hashing it succeeds, whatever digest function pbkdf2 is. -/
theorem c10_verify_password_roundtrip (pbkdf2 : List Nat → List Nat → List Nat)
    (salt password : List Nat) (hlen : salt.length = 32)
    (hbytes : ∀ b ∈ salt, b < 256) :
    verify_password pbkdf2 (hash_password pbkdf2 salt password) password = true := by
  unfold verify_password hash_password
  have h64 : (bytesToHex salt).length = 64 := by rw [bytesToHex_length, hlen]
  rw [List.take_left' h64, List.drop_left' h64, bytesFromHex_bytesToHex salt hbytes]
  simp

/-- Witness for C10 at the all-zero salt and a one-byte password. -/
theorem c10_witness :
    ((List.replicate 32 0).length = 32 ∧ ∀ b ∈ List.replicate 32 0, b < 256) ∧
    verify_password (fun p s => p ++ s)
      (hash_password (fun p s => p ++ s) (List.replicate 32 0) [7]) [7] = true :=
  ⟨⟨by decide, by decide⟩,
   c10_verify_password_roundtrip (fun p s => p ++ s) (List.replicate 32 0) [7]
     (by decide) (by decide)⟩

/-- C4: the sign-in cookie is set with a 31-day max_age, but the token
stored in it is minted by create_jwt with no expires_delta and thus
carries the 15-minute default lifetime, far shorter than the cookie. -/
theorem c4_token_lifetime_mismatch (u : String) (now : Nat) (jti : String) :
    (login_form_token u now jti).exp = now + 15 * 60 ∧
    login_cookie_max_age = 2678400 ∧
    (login_form_token u now jti).exp - now ≠ login_cookie_max_age := by
  refine ⟨rfl, rfl, ?_⟩
  have h1 : (login_form_token u now jti).exp = now + 900 := rfl
  have h2 : login_cookie_max_age = 2678400 := rfl
  rw [h1, h2]
  omega

/-- C6: every message row the receive loop persists carries the
channel-bound username as sender and the SQLite rendering of the server
DB clock as timestamp, and the step result is entirely independent of
any client-supplied sender or timestamp payload fields. -/
theorem c6_sender_timestamp_server_owned (clock : Nat → DateTime) (u : String)
    (s : St) (toU msg : String) (f1 t1 f2 t2 : Option String) :
    (websocket_receive_step clock u (some ⟨some toU, some msg, f1, t1⟩) s).1.messages =
      s.messages ++ [⟨s.nextMessageId, u, toU, msg, sqliteTimestamp (clock s.tick)⟩] ∧
    websocket_receive_step clock u (some ⟨some toU, some msg, f1, t1⟩) s =
      websocket_receive_step clock u (some ⟨some toU, some msg, f2, t2⟩) s :=
  ⟨step_messages clock u toU msg f1 t1 s, rfl⟩

/-- C2: the code lacks the claimed fault tolerance.  A frame json.loads
rejects ends the iteration with an uncaught JSONDecodeError (fatal to
the channel, though nothing is persisted), a frame missing both keys
raises KeyError likewise, and a frame whose "to" and "message" are
present but empty is not rejected: a message row with empty receiver
and body is persisted. -/
theorem c2_malformed_payload_behaviour (clock : Nat → DateTime) (u : String)
    (s : St) (f t : Option String) :
    websocket_receive_step clock u none s = (s, [], .fatal .jsonDecodeError) ∧
    websocket_receive_step clock u (some ⟨none, none, f, t⟩) s =
      (s, [], .fatal .keyError) ∧
    (websocket_receive_step clock u (some ⟨some "", some "", f, t⟩) s).1.messages =
      s.messages ++ [⟨s.nextMessageId, u, "", "", sqliteTimestamp (clock s.tick)⟩] :=
  ⟨rfl, rfl, step_messages clock u "" "" f t s⟩

/-- C7: the presence notice emitted while an identity connects is never
delivered to that identity, whatever the registry held before (also
when the identity already had a registered channel), because the
broadcast runs with the connecting username excluded and before the
new binding is stored: filtering the emitted deliveries for that
username always yields the empty list. -/
theorem c7_presence_excludes_connector (m : List (String × Nat)) (ws : Nat)
    (u : String) :
    (connect m ws u).2.filter (fun d => d.toUser == u) = [] := by
  rw [List.filter_eq_nil_iff]
  intro d hd
  simp only [connect, broadcast, List.mem_map, List.mem_filter] at hd
  obtain ⟨e, ⟨he, hex⟩, hde⟩ := hd
  subst hde
  intro hdu
  have hEq2 : e.1 = u := eq_of_beq hdu
  rw [hEq2] at hex
  simp at hex

/-- Updating the display fields of a row does not change its key. -/
theorem chatKey_display (x y n : String) (pf : Option String) (r : ChatRow) :
    chatKey x y { r with chat_nickname := n, chat_pfp := pf } = chatKey x y r := rfl

/-- The display-field UPDATE of save_chat leaves every row with a
different key exactly in place. -/
theorem save_chat_filter_not (o p n : String) (pf : Option String)
    (l : List ChatRow) :
    (l.map (fun r => if chatKey o p r then
        { r with chat_nickname := n, chat_pfp := pf } else r)).filter
      (fun r => !(chatKey o p r)) =
    l.filter (fun r => !(chatKey o p r)) := by
  induction l with
  | nil => rfl
  | cons r l ih =>
    simp only [List.map_cons, List.filter_cons]
    by_cases h : chatKey o p r
    · simp [h, chatKey_display, ih]
    · simp [h, ih]

/-- The display-field UPDATE of save_chat preserves the router-owned
columns of every row keyed by the pair. -/
theorem save_chat_filter_key (o p n : String) (pf : Option String)
    (l : List ChatRow) :
    ((l.map (fun r => if chatKey o p r then
        { r with chat_nickname := n, chat_pfp := pf } else r)).filter
      (chatKey o p)).map lastFields =
    (l.filter (chatKey o p)).map lastFields := by
  induction l with
  | nil => rfl
  | cons r l ih =>
    simp only [List.map_cons, List.filter_cons]
    by_cases h : chatKey o p r
    · simp [h, chatKey_display, ih, lastFields]
    · simp [h, ih]

/-- The display-field UPDATE of save_chat does not change how many rows
carry any particular key. -/
theorem save_chat_countP (o p n : String) (pf : Option String)
    (l : List ChatRow) :
    (l.map (fun r => if chatKey o p r then
        { r with chat_nickname := n, chat_pfp := pf } else r)).countP
      (chatKey o p) =
    l.countP (chatKey o p) := by
  rw [List.countP_map]
  have hfn : (chatKey o p ∘ fun r => if chatKey o p r then
      { r with chat_nickname := n, chat_pfp := pf } else r) = chatKey o p := by
    funext r
    by_cases h : chatKey o p r <;> simp [h, chatKey_display, Function.comp]
  rw [hfn]

/-- C9: the explicit roster upsert touches only the display fields of
the (owner, peer) row.  Every row with a different key survives exactly
as it was; the router-owned columns of the keyed rows are unchanged
when a row existed and NULL-initialized when the upsert inserted the
row; and the number of rows carrying the key afterwards is the old
count when positive and one otherwise, so a unique key stays unique. -/
theorem c9_save_chat_frame (owner peer nickname : String) (pfp : Option String)
    (chats : List ChatRow) (newId : Nat) (now : String) :
    (save_chat owner peer nickname pfp chats newId now).filter
        (fun r => !(chatKey owner peer r)) =
      chats.filter (fun r => !(chatKey owner peer r)) ∧
    ((save_chat owner peer nickname pfp chats newId now).filter
        (chatKey owner peer)).map lastFields =
      (if chats.any (chatKey owner peer) then
        (chats.filter (chatKey owner peer)).map lastFields
       else [(none, none, now)]) ∧
    (save_chat owner peer nickname pfp chats newId now).countP
        (chatKey owner peer) =
      max (chats.countP (chatKey owner peer)) 1 := by
  by_cases h : chats.any (chatKey owner peer)
  · unfold save_chat
    rw [if_pos h, if_pos h]
    refine ⟨save_chat_filter_not _ _ _ _ _, save_chat_filter_key _ _ _ _ _, ?_⟩
    rw [save_chat_countP]
    have hpos : 0 < chats.countP (chatKey owner peer) := by
      rw [List.countP_pos_iff]
      simpa [List.any_eq_true] using h
    omega
  · unfold save_chat
    rw [if_neg h, if_neg h]
    have hnone : ∀ r ∈ chats, ¬ chatKey owner peer r = true := by
      intro r hr hk
      exact h (List.any_eq_true.mpr ⟨r, hr, hk⟩)
    have hzero : chats.countP (chatKey owner peer) = 0 :=
      List.countP_eq_zero.mpr hnone
    have hfilter : chats.filter (chatKey owner peer) = [] :=
      List.filter_eq_nil_iff.mpr hnone
    refine ⟨?_, ?_, ?_⟩
    · rw [List.filter_append]
      simp [chatKey]
    · rw [List.filter_append, hfilter]
      simp [chatKey, lastFields]
    · rw [List.countP_append, hzero]
      simp [chatKey]

/-- Totality of the saved-chats ORDER BY comparison. -/
theorem rosterLe_total : ∀ a b : ChatRow, rosterLe a b ∨ rosterLe b a := by
  intro a b
  obtain ⟨ia, ua, ca, na, pa, lta, la, cra⟩ := a
  obtain ⟨ib, ub, cb, nb, pb, ltb, lb, crb⟩ := b
  unfold rosterLe rosterLeB
  cases lta with
  | none =>
    cases ltb with
    | none => exact clle_total crb.data cra.data
    | some tb => right; rfl
  | some ta =>
    cases ltb with
    | none => left; rfl
    | some tb =>
      dsimp only
      by_cases he : ta = tb
      · rw [if_pos he, if_pos he.symm]
        exact clle_total crb.data cra.data
      · rw [if_neg he, if_neg (fun hh => he hh.symm)]
        exact clle_total tb.data ta.data

/-- Transitivity of the saved-chats ORDER BY comparison. -/
theorem rosterLe_trans : ∀ a b c : ChatRow, rosterLe a b → rosterLe b c →
    rosterLe a c := by
  intro a b c h1 h2
  obtain ⟨ia, ua, ca2, na, pa, lta, la, cra⟩ := a
  obtain ⟨ib, ub, cb, nb, pb, ltb, lb, crb⟩ := b
  obtain ⟨ic, uc, cc, nc, pc, ltc, lc, crc⟩ := c
  unfold rosterLe rosterLeB at h1 h2 ⊢
  cases lta with
  | none =>
    cases ltb with
    | none =>
      cases ltc with
      | none => exact clle_trans _ _ _ h2 h1
      | some tc => exact absurd h2 (by simp)
    | some tb => exact absurd h1 (by simp)
  | some ta =>
    cases ltb with
    | none =>
      cases ltc with
      | none => rfl
      | some tc => exact absurd h2 (by simp)
    | some tb =>
      cases ltc with
      | none => rfl
      | some tc =>
        dsimp only at h1 h2 ⊢
        by_cases e1 : ta = tb
        · rw [if_pos e1] at h1
          by_cases e2 : tb = tc
          · rw [if_pos e2] at h2
            rw [if_pos (e1.trans e2)]
            exact clle_trans _ _ _ h2 h1
          · rw [if_neg e2] at h2
            rw [if_neg (fun hh : ta = tc => e2 (e1 ▸ hh))]
            rw [e1]
            exact h2
        · rw [if_neg e1] at h1
          by_cases e2 : tb = tc
          · rw [if_pos e2] at h2
            rw [if_neg (fun hh : ta = tc => e1 (hh.trans e2.symm))]
            rw [← e2]
            exact h1
          · rw [if_neg e2] at h2
            by_cases e3 : ta = tc
            · exact absurd (str_eq_of_data_eq tc tb
                (clle_antisymm _ _ h2 (e3 ▸ h1))) (fun hh => e2 hh.symm)
            · rw [if_neg e3]
              exact clle_trans _ _ _ h2 h1

/-- C8: the roster fetch returns exactly the rows owned by the caller,
as a permutation of the table restriction, sorted so that any row may
precede another only when its last_message_time is strictly later, or
equal (both NULL counting equal, non-NULL always preceding NULL) with
created_at at least as late: last message time descending, NULLs last,
ties broken by creation time descending. -/
theorem c8_roster_order (owner : String) (chats : List ChatRow) :
    List.Sorted rosterLe (get_saved_chats owner chats) ∧
    (get_saved_chats owner chats).Perm
      (chats.filter (fun r => r.user_username == owner)) ∧
    (∀ r ∈ get_saved_chats owner chats, r.user_username = owner) := by
  haveI : IsTotal ChatRow rosterLe := ⟨rosterLe_total⟩
  haveI : IsTrans ChatRow rosterLe := ⟨rosterLe_trans⟩
  refine ⟨List.sorted_insertionSort rosterLe _, List.perm_insertionSort rosterLe _, ?_⟩
  intro r hr
  rw [get_saved_chats, List.mem_insertionSort] at hr
  exact eq_of_beq (List.mem_filter.mp hr).2

/-- C1 (amended): the history fetch returns at most 50 rows, all
between the pair, in non-decreasing timestamp order, and when rows are
left out the returned ones are the oldest: every returned row has a
timestamp at most that of every pair row not returned.  The source
query orders ascending and then applies LIMIT 50, so the cut keeps the
oldest rows, not the newest. -/
theorem c1_history_returns_oldest_fifty (me other : String)
    (msgs : List MessageRow) :
    List.Sorted tsLe (get_messages me other msgs) ∧
    (get_messages me other msgs).length ≤ 50 ∧
    (∀ m ∈ get_messages me other msgs, pairPred me other m = true) ∧
    (∀ m ∈ get_messages me other msgs,
      ∀ m2 ∈ msgs.filter (pairPred me other),
        m2 ∉ get_messages me other msgs → tsLe m m2) := by
  haveI : IsTotal MessageRow tsLe := ⟨fun a b => clle_total _ _⟩
  haveI : IsTrans MessageRow tsLe := ⟨fun a b c => clle_trans _ _ _⟩
  have hsorted : List.Sorted tsLe
      ((msgs.filter (pairPred me other)).insertionSort tsLe) :=
    List.sorted_insertionSort tsLe _
  refine ⟨?_, ?_, ?_, ?_⟩
  · exact List.Pairwise.sublist (List.take_sublist _ _) hsorted
  · exact List.length_take_le _ _
  · intro m hm
    have hms : m ∈ (msgs.filter (pairPred me other)).insertionSort tsLe :=
      List.mem_of_mem_take hm
    rw [List.mem_insertionSort] at hms
    exact (List.mem_filter.mp hms).2
  · intro m hm m2 hm2 hnot
    have hm2s : m2 ∈ (msgs.filter (pairPred me other)).insertionSort tsLe :=
      (List.mem_insertionSort tsLe).mpr hm2
    have hsplit := List.take_append_drop 50
      ((msgs.filter (pairPred me other)).insertionSort tsLe)
    rw [← hsplit] at hsorted
    rcases List.mem_append.mp (hsplit ▸ hm2s) with hin | hin
    · exact absurd hin hnot
    · exact (List.pairwise_append.mp hsorted).2.2 m hm m2 hin

/-- Counterexample to C1 as stated: among 51 persisted messages between
A and B, the strictly newest one (every pair row has a timestamp at
most its own) is not among the rows the history fetch returns, so the
returned rows are not the newest 50. -/
theorem c1_counterexample :
    (table51.filter (pairPred "A" "B")).length = 51 ∧
    newestRow ∈ table51.filter (pairPred "A" "B") ∧
    (∀ m ∈ table51.filter (pairPred "A" "B"), tsLe m newestRow) ∧
    newestRow ∉ get_messages "A" "B" table51 := by
  decide

/-- C3 (amended): after the receive loop processes a valid message to a
registered profile, the message row is appended with the DB-clock
SQLite timestamp, both directed roster rows exist, and both carry the
message body together with a last_message_time that is the isoformat
rendering of a wall-clock read taken during the roster update, a text
that is never equal to the persisted message timestamp because the two
renderings differ in shape. -/
theorem c3_roster_after_message (clock : Nat → DateTime) (u toU msg : String)
    (f t : Option String) (s : St) (sr rr : UserRow)
    (hsi : findUser s.users u = some sr) (hri : findUser s.users toU = some rr) :
    ∃ tU : DateTime,
      (websocket_receive_step clock u (some ⟨some toU, some msg, f, t⟩) s).1.messages =
        s.messages ++
          [⟨s.nextMessageId, u, toU, msg, sqliteTimestamp (clock s.tick)⟩] ∧
      hasChat (websocket_receive_step clock u
        (some ⟨some toU, some msg, f, t⟩) s).1.saved_chats u toU = true ∧
      hasChat (websocket_receive_step clock u
        (some ⟨some toU, some msg, f, t⟩) s).1.saved_chats toU u = true ∧
      (∀ r ∈ (websocket_receive_step clock u
          (some ⟨some toU, some msg, f, t⟩) s).1.saved_chats,
        (chatKey u toU r || chatKey toU u r) = true →
        r.last_message = some msg ∧ r.last_message_time = some (isoformat tU)) ∧
      some (isoformat tU) ≠ some (sqliteTimestamp (clock s.tick)) := by
  have hstep : websocket_receive_step clock u (some ⟨some toU, some msg, f, t⟩) s =
      router_after_insert clock u toU msg
        { s with
          messages := s.messages ++
            [⟨s.nextMessageId, u, toU, msg, sqliteTimestamp (clock s.tick)⟩],
          nextMessageId := s.nextMessageId + 1,
          tick := s.tick + 1 } := rfl
  rw [hstep]
  obtain ⟨s2, hok, hm, ha, hcab, hcba, hchats, hmsgs, hout, hoffl⟩ :=
    router_after_insert_spec clock u toU msg
      { s with
        messages := s.messages ++
          [⟨s.nextMessageId, u, toU, msg, sqliteTimestamp (clock s.tick)⟩],
        nextMessageId := s.nextMessageId + 1,
        tick := s.tick + 1 } sr rr hsi hri
  refine ⟨clock s2.tick, ?_, ?_, ?_, ?_, ?_⟩
  · rw [hmsgs]
  · rw [hchats, update_hasChat]
    exact hcab
  · rw [hchats, update_hasChat]
    exact hcba
  · intro r hr hk
    rw [hchats] at hr
    exact update_fields clock u toU msg s2 r hr hk
  · intro hbad
    exact sqliteTimestamp_ne_isoformat (clock s.tick) (clock s2.tick)
      (Option.some.inj hbad).symm

/-- Counterexample to C3 as stated: in a concrete run the persisted
message row carries timestamp "2026-10-12 00:00:00" while both roster
rows carry last_message_time "2026-10-12T00:00:00", so the roster time
is not the timestamp of the persisted message row. -/
theorem c3_counterexample :
    ((websocket_receive_step clock0 "A" (some hiPayload) demoStart).1.messages.map
        (fun m => m.timestamp) = ["2026-10-12 00:00:00"]) ∧
    ((websocket_receive_step clock0 "A" (some hiPayload) demoStart).1.saved_chats.map
        (fun r => (r.user_username, r.chat_username, r.last_message,
          r.last_message_time)) =
      [("A", "B", some "hi", some "2026-10-12T00:00:00"),
       ("B", "A", some "hi", some "2026-10-12T00:00:00")]) ∧
    some ("2026-10-12T00:00:00" : String) ≠ some ("2026-10-12 00:00:00" : String) := by
  decide

/-- Witness for the amended C3 at a concrete two-user state. -/
theorem c3_witness :
    (findUser demoStart.users "A" = some ⟨1, "A", "a@example.com", "x", "Anna", none⟩ ∧
     findUser demoStart.users "B" =
       some ⟨2, "B", "b@example.com", "x", "Bob", some "b.png"⟩) ∧
    (∃ tU : DateTime,
      (websocket_receive_step clock0 "A"
        (some ⟨some "B", some "hi", none, none⟩) demoStart).1.messages =
        demoStart.messages ++
          [⟨demoStart.nextMessageId, "A", "B", "hi",
            sqliteTimestamp (clock0 demoStart.tick)⟩] ∧
      hasChat (websocket_receive_step clock0 "A"
        (some ⟨some "B", some "hi", none, none⟩) demoStart).1.saved_chats "A" "B" = true ∧
      hasChat (websocket_receive_step clock0 "A"
        (some ⟨some "B", some "hi", none, none⟩) demoStart).1.saved_chats "B" "A" = true ∧
      (∀ r ∈ (websocket_receive_step clock0 "A"
          (some ⟨some "B", some "hi", none, none⟩) demoStart).1.saved_chats,
        (chatKey "A" "B" r || chatKey "B" "A" r) = true →
        r.last_message = some "hi" ∧ r.last_message_time = some (isoformat tU)) ∧
      some (isoformat tU) ≠ some (sqliteTimestamp (clock0 demoStart.tick))) :=
  ⟨⟨rfl, rfl⟩,
   c3_roster_after_message clock0 "A" "B" "hi" none none demoStart _ _ rfl rfl⟩

/-- C5 (amended): a valid message to an unregistered receiver from a
registered sender with resolvable profiles produces exactly one event,
the structured offline notice to the sender alone; the message row is
persisted; the iteration ends normally; and the row appears in a
subsequent history fetch for the pair provided fewer than 50 pair rows
preceded it (the ascending LIMIT 50 cut would otherwise hide it). -/
theorem c5_offline_notice (clock : Nat → DateTime) (u toU msg : String)
    (f t : Option String) (s : St) (sr rr : UserRow)
    (hsi : findUser s.users u = some sr) (hri : findUser s.users toU = some rr)
    (hoff : isConnected s.active_connections toU = false)
    (hon : isConnected s.active_connections u = true)
    (hcnt : (s.messages.filter (pairPred u toU)).length < 50) :
    (websocket_receive_step clock u (some ⟨some toU, some msg, f, t⟩) s).2.1 =
      [⟨u, .error ("User " ++ toU ++ " is not online.")⟩] ∧
    (⟨s.nextMessageId, u, toU, msg, sqliteTimestamp (clock s.tick)⟩ : MessageRow) ∈
      (websocket_receive_step clock u (some ⟨some toU, some msg, f, t⟩) s).1.messages ∧
    (⟨s.nextMessageId, u, toU, msg, sqliteTimestamp (clock s.tick)⟩ : MessageRow) ∈
      get_messages u toU
        (websocket_receive_step clock u (some ⟨some toU, some msg, f, t⟩) s).1.messages ∧
    (websocket_receive_step clock u (some ⟨some toU, some msg, f, t⟩) s).2.2 = .ok := by
  have hstep : websocket_receive_step clock u (some ⟨some toU, some msg, f, t⟩) s =
      router_after_insert clock u toU msg
        { s with
          messages := s.messages ++
            [⟨s.nextMessageId, u, toU, msg, sqliteTimestamp (clock s.tick)⟩],
          nextMessageId := s.nextMessageId + 1,
          tick := s.tick + 1 } := rfl
  rw [hstep]
  obtain ⟨s2, hok, hm, ha, hcab, hcba, hchats, hmsgs, hout, hoffl⟩ :=
    router_after_insert_spec clock u toU msg
      { s with
        messages := s.messages ++
          [⟨s.nextMessageId, u, toU, msg, sqliteTimestamp (clock s.tick)⟩],
        nextMessageId := s.nextMessageId + 1,
        tick := s.tick + 1 } sr rr hsi hri
  have hfil : (s.messages ++
      [(⟨s.nextMessageId, u, toU, msg,
        sqliteTimestamp (clock s.tick)⟩ : MessageRow)]).filter
        (pairPred u toU) =
      s.messages.filter (pairPred u toU) ++
        [(⟨s.nextMessageId, u, toU, msg,
          sqliteTimestamp (clock s.tick)⟩ : MessageRow)] := by
    rw [List.filter_append]
    congr 1
    simp [pairPred]
  refine ⟨?_, ?_, ?_, hout⟩
  · rw [hoffl hoff]
    show send_personal_message s.active_connections
      (.error ("User " ++ toU ++ " is not online.")) u = _
    unfold send_personal_message
    rw [if_pos hon]
  · have hx : (⟨s.nextMessageId, u, toU, msg,
        sqliteTimestamp (clock s.tick)⟩ : MessageRow) ∈
        s.messages ++
          [(⟨s.nextMessageId, u, toU, msg,
            sqliteTimestamp (clock s.tick)⟩ : MessageRow)] := by simp
    rw [hmsgs]
    exact hx
  · have hx : (⟨s.nextMessageId, u, toU, msg,
        sqliteTimestamp (clock s.tick)⟩ : MessageRow) ∈
        get_messages u toU (s.messages ++
          [(⟨s.nextMessageId, u, toU, msg,
            sqliteTimestamp (clock s.tick)⟩ : MessageRow)]) := by
      unfold get_messages
      rw [hfil]
      have hlen : ((s.messages.filter (pairPred u toU) ++
          [(⟨s.nextMessageId, u, toU, msg,
            sqliteTimestamp (clock s.tick)⟩ : MessageRow)]).insertionSort
            tsLe).length ≤ 50 := by
        rw [List.length_insertionSort, List.length_append]
        simp only [List.length_cons, List.length_nil]
        omega
      rw [List.take_of_length_le hlen, List.mem_insertionSort]
      simp
    rw [hmsgs]
    exact hx

/-- Counterexample to C5 as stated: with 50 messages already persisted
between A and B and B offline, sending one more produces the single
offline notice to A and persists the row, yet the subsequent history
fetch for the pair does not return it. -/
theorem c5_counterexample :
    ((websocket_receive_step clock0 "A" (some hiPayload) fullState).2.1 =
      [⟨"A", .error "User B is not online."⟩]) ∧
    ((⟨51, "A", "B", "hi", "2026-10-12 00:00:00"⟩ : MessageRow) ∈
      (websocket_receive_step clock0 "A" (some hiPayload) fullState).1.messages) ∧
    ((⟨51, "A", "B", "hi", "2026-10-12 00:00:00"⟩ : MessageRow) ∉
      get_messages "A" "B"
        (websocket_receive_step clock0 "A" (some hiPayload) fullState).1.messages) := by
  decide

/-- Witness for the amended C5 at a concrete state with B offline. -/
theorem c5_witness :
    (findUser demoStartOffline.users "A" =
        some ⟨1, "A", "a@example.com", "x", "Anna", none⟩ ∧
     findUser demoStartOffline.users "B" =
        some ⟨2, "B", "b@example.com", "x", "Bob", some "b.png"⟩ ∧
     isConnected demoStartOffline.active_connections "B" = false ∧
     isConnected demoStartOffline.active_connections "A" = true ∧
     (demoStartOffline.messages.filter (pairPred "A" "B")).length < 50) ∧
    ((websocket_receive_step clock0 "A"
        (some ⟨some "B", some "hi", none, none⟩) demoStartOffline).2.1 =
      [⟨"A", .error ("User " ++ "B" ++ " is not online.")⟩] ∧
    (⟨demoStartOffline.nextMessageId, "A", "B", "hi",
        sqliteTimestamp (clock0 demoStartOffline.tick)⟩ : MessageRow) ∈
      (websocket_receive_step clock0 "A"
        (some ⟨some "B", some "hi", none, none⟩) demoStartOffline).1.messages ∧
    (⟨demoStartOffline.nextMessageId, "A", "B", "hi",
        sqliteTimestamp (clock0 demoStartOffline.tick)⟩ : MessageRow) ∈
      get_messages "A" "B"
        (websocket_receive_step clock0 "A"
          (some ⟨some "B", some "hi", none, none⟩) demoStartOffline).1.messages ∧
    (websocket_receive_step clock0 "A"
        (some ⟨some "B", some "hi", none, none⟩) demoStartOffline).2.2 = .ok) :=
  ⟨⟨rfl, rfl, rfl, rfl, by decide⟩,
   c5_offline_notice clock0 "A" "B" "hi" none none demoStartOffline _ _ rfl rfl
     rfl rfl (by decide)⟩
